import Mathlib

/-!
Shallow embedding of the croppie image-cropping widget core.

The definitions below translate the transform / crop-rectangle algebra of
the widget: `clamp` (src/utils/clamp.ts), `calculateInitialZoom`
(src/utils/image.ts), and the state-mutating operations of the `Croppie`
class (src/croppie.ts): the constructor, `bind`, `setZoom`, the drag /
wheel / pinch / slider input handlers (src/input/drag.ts,
src/input/zoom.ts and the slider handler in `createElements`), `reset`,
`getPoints` and `result`.  Numbers are modelled as rationals; DOM and
canvas effects are dropped, while every state field and every emitted
notification the handlers produce is kept explicitly.
-/

/-- Binary `Math.max`. -/
def mathMax (a b : ℚ) : ℚ := if a ≤ b then b else a

/-- Binary `Math.min`. -/
def mathMin (a b : ℚ) : ℚ := if a ≤ b then a else b

/-- The clamp function of src/utils/clamp.ts: `Math.min(Math.max(value, min), max)`. -/
def clamp (value min max : ℚ) : ℚ :=
  mathMin (mathMax value min) max

/-- The src/utils/image.ts `calculateInitialZoom` function: the larger of the two
axis ratios `viewport / image`. -/
def calculateInitialZoom (imageWidth imageHeight viewportWidth viewportHeight : ℚ) : ℚ :=
  let widthRatio := viewportWidth / imageWidth
  let heightRatio := viewportHeight / imageHeight
  mathMax widthRatio heightRatio

/-- Viewport spec: width, height and shape ("circle" or "square"). -/
structure Viewport where
  width : ℚ
  height : ℚ
  type : String
deriving DecidableEq

/-- Boundary spec: the outer region the image pans within. -/
structure Boundary where
  width : ℚ
  height : ℚ
deriving DecidableEq

/-- The zoom configuration stored on the widget after defaulting. -/
structure ZoomConfig where
  min : ℚ
  max : ℚ
  enforceMinimumCoverage : Option Bool
deriving DecidableEq

/-- The partial zoom configuration as supplied by the caller
(`Partial<ZoomConfig>` in the source). -/
structure ZoomConfigInput where
  min : Option ℚ
  max : Option ℚ
  enforceMinimumCoverage : Option Bool
deriving DecidableEq

/-- The bound image's natural pixel dimensions. -/
structure ImageDims where
  naturalWidth : ℚ
  naturalHeight : ℚ
deriving DecidableEq

/-- Pan offset and uniform scale (`TransformState` in src/types.ts). -/
structure TransformState where
  x : ℚ
  y : ℚ
  scale : ℚ
deriving DecidableEq

/-- Crop rectangle in source-image pixel coordinates (`CropPoints`). -/
structure CropPoints where
  topLeftX : ℚ
  topLeftY : ℚ
  bottomRightX : ℚ
  bottomRightY : ℚ
deriving DecidableEq

/-- Constructor options (the fields relevant to the transform model). -/
structure CroppieOptions where
  viewport : Viewport
  boundary : Option Boundary
  zoom : Option ZoomConfigInput
deriving DecidableEq

/-- The widget state: configuration fixed at construction plus the
mutable image / transform / effective-minimum-zoom fields. -/
structure CroppieState where
  viewport : Viewport
  boundary : Boundary
  zoomConfig : ZoomConfig
  image : Option ImageDims
  transform : TransformState
  effectiveMinZoom : ℚ
deriving DecidableEq

/-- The `DEFAULT_ZOOM` constant from src/croppie.ts: `{ min: 0.1, max: 10 }`. -/
def DEFAULT_ZOOM : ZoomConfig :=
  { min := 1/10, max := 10, enforceMinimumCoverage := none }

/-- Payload of `get()` and of "update" notifications (`CroppieData`). -/
structure CroppieData where
  points : CropPoints
  zoom : ℚ
deriving DecidableEq

/-- A notification emitted through `emitEvent`: either an "update" event
carrying the `get()` snapshot or a "zoom" event carrying
`{zoom, previousZoom}`. -/
inductive Notification where
  | update (data : CroppieData)
  | zoom (zoom previousZoom : ℚ)
deriving DecidableEq

/-- The `Croppie` constructor (src/croppie.ts): defaults the boundary to
viewport + 100, merges the zoom config over `DEFAULT_ZOOM`, and starts
with no image, transform `{0, 0, 1}` and `effectiveMinZoom = 0.1`
(the field initializer). -/
def Croppie.create (options : CroppieOptions) : CroppieState :=
  let defaultBoundary : Boundary :=
    { width := options.viewport.width + 100, height := options.viewport.height + 100 }
  { viewport := options.viewport
    boundary := options.boundary.getD defaultBoundary
    zoomConfig :=
      { min := (options.zoom.bind (fun z => z.min)).getD DEFAULT_ZOOM.min
        max := (options.zoom.bind (fun z => z.max)).getD DEFAULT_ZOOM.max
        enforceMinimumCoverage := options.zoom.bind (fun z => z.enforceMinimumCoverage) }
    image := none
    transform := { x := 0, y := 0, scale := 1 }
    effectiveMinZoom := 1/10 }

/-- The unclamped crop rectangle: the body of `getPoints` before the
final clamping step (src/croppie.ts lines computing `topLeftX` ..
`bottomRightY`). -/
def Croppie.cropRaw (s : CroppieState) (image : ImageDims) : CropPoints :=
  let imageWidth := image.naturalWidth
  let imageHeight := image.naturalHeight
  let scaledWidth := imageWidth * s.transform.scale
  let scaledHeight := imageHeight * s.transform.scale
  let imageLeft := (s.boundary.width - scaledWidth) / 2 + s.transform.x
  let imageTop := (s.boundary.height - scaledHeight) / 2 + s.transform.y
  let viewportLeft := (s.boundary.width - s.viewport.width) / 2
  let viewportTop := (s.boundary.height - s.viewport.height) / 2
  let topLeftX := (viewportLeft - imageLeft) / s.transform.scale
  let topLeftY := (viewportTop - imageTop) / s.transform.scale
  { topLeftX := topLeftX
    topLeftY := topLeftY
    bottomRightX := topLeftX + s.viewport.width / s.transform.scale
    bottomRightY := topLeftY + s.viewport.height / s.transform.scale }

/-- The `Croppie.getPoints` method: all-zero rectangle when no image is bound,
otherwise the raw rectangle with top-left clamped to `≥ 0` and
bottom-right clamped to `≤` the image dimension. -/
def Croppie.getPoints (s : CroppieState) : CropPoints :=
  match s.image with
  | none => { topLeftX := 0, topLeftY := 0, bottomRightX := 0, bottomRightY := 0 }
  | some image =>
    let raw := Croppie.cropRaw s image
    { topLeftX := mathMax 0 raw.topLeftX
      topLeftY := mathMax 0 raw.topLeftY
      bottomRightX := mathMin image.naturalWidth raw.bottomRightX
      bottomRightY := mathMin image.naturalHeight raw.bottomRightY }

/-- The `Croppie.get` method: snapshot of crop points and current zoom. -/
def Croppie.get (s : CroppieState) : CroppieData :=
  { points := Croppie.getPoints s, zoom := s.transform.scale }

/-- The `Croppie.setZoom` method: clamps the candidate into
`[effectiveMinZoom, zoomConfig.max]`, stores it as the scale, and emits
one "update" notification iff the stored scale changed. -/
def Croppie.setZoom (s : CroppieState) (value : ℚ) : CroppieState × List Notification :=
  let previousZoom := s.transform.scale
  let s' : CroppieState :=
    { s with transform :=
        { s.transform with scale := clamp value s.effectiveMinZoom s.zoomConfig.max } }
  if previousZoom ≠ s'.transform.scale then
    (s', [Notification.update (Croppie.get s')])
  else
    (s', [])

/-- The `Croppie.bind` method (state part): computes the coverage zoom, raises
`effectiveMinZoom` to it unless coverage enforcement is disabled, and
installs the transform `{0, 0, clamp(requested ?? coverage, effMin, max)}`. -/
def Croppie.bind (s : CroppieState) (image : ImageDims) (zoom : Option ℚ) : CroppieState :=
  let coverageZoom :=
    calculateInitialZoom image.naturalWidth image.naturalHeight
      s.viewport.width s.viewport.height
  let effectiveMinZoom :=
    if s.zoomConfig.enforceMinimumCoverage ≠ some false then
      mathMax s.zoomConfig.min coverageZoom
    else
      s.zoomConfig.min
  let initialZoom := zoom.getD coverageZoom
  { s with
      image := some image
      effectiveMinZoom := effectiveMinZoom
      transform :=
        { x := 0, y := 0, scale := clamp initialZoom effectiveMinZoom s.zoomConfig.max } }

/-- The drag handler's transform setter (src/croppie.ts
`attachEventHandlers`): overwrites the pan offsets unconditionally and
emits one "update" notification. -/
def Croppie.dragTo (s : CroppieState) (x y : ℚ) : CroppieState × List Notification :=
  let s' : CroppieState := { s with transform := { s.transform with x := x, y := y } }
  (s', [Notification.update (Croppie.get s')])

/-- The `Croppie.reset` method: no-op without an image; otherwise restores
`{0, 0, clamp(coverageZoom, effectiveMinZoom, max)}` and emits "update". -/
def Croppie.reset (s : CroppieState) : CroppieState × List Notification :=
  match s.image with
  | none => (s, [])
  | some image =>
    let coverageZoom :=
      calculateInitialZoom image.naturalWidth image.naturalHeight
        s.viewport.width s.viewport.height
    let initialZoom := clamp coverageZoom s.effectiveMinZoom s.zoomConfig.max
    let s' : CroppieState :=
      { s with transform := { x := 0, y := 0, scale := initialZoom } }
    (s', [Notification.update (Croppie.get s')])

/-- The slider "input" handler (src/croppie.ts `createElements`): calls
`setZoom` with the slider value, then unconditionally emits a "zoom"
notification with the post-`setZoom` scale and the previous scale. -/
def Croppie.handleSliderInput (s : CroppieState) (sliderValue : ℚ) :
    CroppieState × List Notification :=
  let previousZoom := s.transform.scale
  let r := Croppie.setZoom s sliderValue
  (r.1, r.2 ++ [Notification.zoom r.1.transform.scale previousZoom])

/-- The wheel handler (src/input/zoom.ts `createWheelZoomHandler`
composed with the widget's `onChange` callback): a ±0.1 step clamped to
the static config range; if that differs from the previous scale it
calls `setZoom` and then emits "zoom" with the widget's actual
(post-`setZoom`) scale. -/
def Croppie.handleWheel (s : CroppieState) (deltaY : ℚ) (requireCtrl ctrlKey : Bool) :
    CroppieState × List Notification :=
  if requireCtrl && !ctrlKey then (s, [])
  else if deltaY = 0 then (s, [])
  else
    let previousZoom := s.transform.scale
    let delta : ℚ := if deltaY > 0 then -(1/10) else 1/10
    let newZoom := clamp (previousZoom + delta) s.zoomConfig.min s.zoomConfig.max
    if newZoom ≠ previousZoom then
      let r := Croppie.setZoom s newZoom
      (r.1, r.2 ++ [Notification.zoom r.1.transform.scale previousZoom])
    else
      (s, [])

/-- The pinch touch-move handler (src/input/zoom.ts
`createPinchZoomHandler` composed with the widget's `onChange`
callback): scales the gesture-start zoom by the finger-distance ratio,
clamps to the static config range, and on difference calls `setZoom`
then emits "zoom". Inert unless a two-finger gesture is in progress
(`initialDistance > 0`). -/
def Croppie.handlePinchMove (s : CroppieState)
    (initialDistance initialZoom currentDistance : ℚ) :
    CroppieState × List Notification :=
  if initialDistance > 0 then
    let scale := currentDistance / initialDistance
    let previousZoom := s.transform.scale
    let newZoom := clamp (initialZoom * scale) s.zoomConfig.min s.zoomConfig.max
    if newZoom ≠ previousZoom then
      let r := Croppie.setZoom s newZoom
      (r.1, r.2 ++ [Notification.zoom r.1.transform.scale previousZoom])
    else
      (s, [])
  else
    (s, [])

/-- The `size` field of `ResultOptions`: a literal size, or one of the
sentinels "viewport" / "original". -/
inductive ResultSize where
  | viewport
  | original
  | literal (width height : ℚ)
deriving DecidableEq

/-- Result options (src/types.ts `ResultOptions`), with `type` kept as a raw string so
that the unrecognized-type branch of `result` is representable. -/
structure ResultOptions where
  type : String
  size : Option ResultSize
  format : Option String
  quality : Option ℚ
  circle : Option Bool
  backgroundColor : Option String
deriving DecidableEq

/-- The arguments `result` passes to the external `drawCroppedImage`
rasterizer (src/canvas/draw.ts), kept abstract. -/
structure RasterRequest where
  points : CropPoints
  outputWidth : ℚ
  outputHeight : ℚ
  circle : Bool
  backgroundColor : Option String
deriving DecidableEq

/-- The value produced by `result`: the raster request routed through
one of the three encoders. -/
inductive ResultOutput where
  | canvas (request : RasterRequest)
  | base64 (request : RasterRequest) (format : Option String) (quality : Option ℚ)
  | blob (request : RasterRequest) (format : Option String) (quality : Option ℚ)
deriving DecidableEq

/-- The raster request carried by a `ResultOutput`. -/
def ResultOutput.request : ResultOutput → RasterRequest
  | ResultOutput.canvas r => r
  | ResultOutput.base64 r _ _ => r
  | ResultOutput.blob r _ _ => r

/-- The `Croppie.result` method, as a state transformer returning the outcome and
the (unmodified) widget state: throws without a bound image, selects the
output size from the `size` request after computing `getPoints`, builds
the raster request, and dispatches on `type`, throwing on an
unrecognized one. -/
def Croppie.result (s : CroppieState) (options : ResultOptions) :
    Except String ResultOutput × CroppieState :=
  match s.image with
  | none => (Except.error "No image bound", s)
  | some _ =>
    let points := Croppie.getPoints s
    let viewport := s.viewport
    let dims : ℚ × ℚ :=
      match options.size with
      | some ResultSize.viewport => (viewport.width, viewport.height)
      | some ResultSize.original =>
          (points.bottomRightX - points.topLeftX, points.bottomRightY - points.topLeftY)
      | some (ResultSize.literal w h) => (w, h)
      | none => (viewport.width, viewport.height)
    let request : RasterRequest :=
      { points := points
        outputWidth := dims.1
        outputHeight := dims.2
        circle := options.circle.getD (viewport.type == "circle")
        backgroundColor := options.backgroundColor }
    match options.type with
    | "canvas" => (Except.ok (ResultOutput.canvas request), s)
    | "base64" => (Except.ok (ResultOutput.base64 request options.format options.quality), s)
    | "blob" => (Except.ok (ResultOutput.blob request options.format options.quality), s)
    | _ => (Except.error ("Unknown result type: " ++ options.type), s)

/-- The widget states reachable from construction through any sequence
of `bind`, `setZoom`, drag pans and `reset`. -/
inductive Reachable : CroppieState → Prop where
  | create (options : CroppieOptions) : Reachable (Croppie.create options)
  | bind (s : CroppieState) (image : ImageDims) (zoom : Option ℚ) :
      Reachable s → Reachable (Croppie.bind s image zoom)
  | setZoom (s : CroppieState) (value : ℚ) :
      Reachable s → Reachable (Croppie.setZoom s value).1
  | drag (s : CroppieState) (x y : ℚ) :
      Reachable s → Reachable (Croppie.dragTo s x y).1
  | reset (s : CroppieState) :
      Reachable s → Reachable (Croppie.reset s).1

/-- A concrete post-`bind` state used to witness C6: viewport 100×100,
image 100×100, default zoom range, so `effectiveMinZoom = 1`. -/
def stateC6 : CroppieState :=
  Croppie.bind
    (Croppie.create
      { viewport := { width := 100, height := 100, type := "square" }
        boundary := none
        zoom := none })
    { naturalWidth := 100, naturalHeight := 100 } none

/-- Options with a configured zoom minimum of 0.5 used for C7. -/
def optionsC7 : CroppieOptions :=
  { viewport := { width := 100, height := 100, type := "square" }
    boundary := none
    zoom := some { min := some (1/2), max := some 10, enforceMinimumCoverage := none } }

/-- Degenerate coverage state for C3: viewport 100×100, image 1×1,
default zoom range, so the coverage zoom is 100. -/
def stateC3 : CroppieState :=
  Croppie.bind
    (Croppie.create
      { viewport := { width := 100, height := 100, type := "square" }
        boundary := none
        zoom := some { min := some (1/10), max := some 10, enforceMinimumCoverage := none } })
    { naturalWidth := 1, naturalHeight := 1 } none

/-- The C5 scenario state: viewport 100×100, image 1×1,
`zoomRange {min: 0.1, max: 10}`, coverage enforcement left at its
default. -/
def stateC5 : CroppieState :=
  Croppie.bind
    (Croppie.create
      { viewport := { width := 100, height := 100, type := "square" }
        boundary := none
        zoom := some { min := some (1/10), max := some 10, enforceMinimumCoverage := none } })
    { naturalWidth := 1, naturalHeight := 1 } none

/-- Degenerate coverage state for the C10 witness: like `stateC3`,
with `effectiveMinZoom = 100 > max = 10` after `bind`. -/
def stateC10 : CroppieState :=
  Croppie.bind
    (Croppie.create
      { viewport := { width := 100, height := 100, type := "square" }
        boundary := none
        zoom := some { min := some (1/10), max := some 10, enforceMinimumCoverage := none } })
    { naturalWidth := 1, naturalHeight := 1 } none

/-- Bound state for C2: coverage enforcement off, `effectiveMinZoom =
0.5`, current scale 2 (in range, so re-applying 2 is a no-op). -/
def stateC2 : CroppieState :=
  Croppie.bind
    (Croppie.create
      { viewport := { width := 100, height := 100, type := "square" }
        boundary := none
        zoom := some { min := some (1/2), max := some 5, enforceMinimumCoverage := some false } })
    { naturalWidth := 4, naturalHeight := 3 } (some 2)

/-- Constructor options for the C1 counterexample. -/
def optionsC1 : CroppieOptions :=
  { viewport := { width := 100, height := 100, type := "square" }
    boundary := none
    zoom := none }

/-- Image for the C1 counterexample. -/
def imageC1 : ImageDims := { naturalWidth := 100, naturalHeight := 100 }

/-- The C1 counterexample state: bind a 100×100 image, then drag the
pan to `x = 1000` (panning is never clamped). -/
def stateC1 : CroppieState :=
  (Croppie.dragTo (Croppie.bind (Croppie.create optionsC1) imageC1 none) 1000 0).1

/-- Un-panned bound state for the C1 amended witness. -/
def stateC1w : CroppieState :=
  Croppie.bind (Croppie.create optionsC1) imageC1 none

/-- A bound state used to witness C9's unknown-type case. -/
def stateC9 : CroppieState :=
  Croppie.bind (Croppie.create optionsC1) imageC1 none

/-- Unbound (freshly constructed) state used to witness C9's
missing-image case. -/
def stateC9unbound : CroppieState :=
  Croppie.create optionsC1

/-- Result options with an unrecognized type used to witness C9. -/
def optionsC9 : ResultOptions :=
  { type := "webp", size := none, format := none, quality := none,
    circle := none, backgroundColor := none }

/-- Bound state for the C8 witness. -/
def stateC8 : CroppieState :=
  Croppie.bind (Croppie.create optionsC1) imageC1 none

/-- Canvas-type result options with no size request, for the C8
witness. -/
def optionsC8 : ResultOptions :=
  { type := "canvas", size := none, format := none, quality := none,
    circle := none, backgroundColor := none }

/-- The value `result` produces in the C8 witness scenario. -/
def outC8 : ResultOutput :=
  ResultOutput.canvas
    { points := Croppie.getPoints stateC8
      outputWidth := stateC8.viewport.width
      outputHeight := stateC8.viewport.height
      circle := false
      backgroundColor := none }

/-! ### Helper lemmas about `mathMax`, `mathMin` and `clamp` -/

theorem le_mathMax_left (a b : ℚ) : a ≤ mathMax a b := by
  unfold mathMax; split_ifs <;> linarith

theorem le_mathMax_right (a b : ℚ) : b ≤ mathMax a b := by
  unfold mathMax; split_ifs <;> linarith

theorem mathMax_le {a b c : ℚ} (h₁ : a ≤ c) (h₂ : b ≤ c) : mathMax a b ≤ c := by
  unfold mathMax; split_ifs <;> assumption

theorem mathMin_le_left (a b : ℚ) : mathMin a b ≤ a := by
  unfold mathMin; split_ifs <;> linarith

theorem mathMin_le_right (a b : ℚ) : mathMin a b ≤ b := by
  unfold mathMin; split_ifs <;> linarith

theorem le_mathMin {a b c : ℚ} (h₁ : c ≤ a) (h₂ : c ≤ b) : c ≤ mathMin a b := by
  unfold mathMin; split_ifs <;> assumption

theorem clamp_le_right (value min max : ℚ) : clamp value min max ≤ max := by
  unfold clamp; exact mathMin_le_right _ _

/-- The state component of `setZoom` does not depend on whether a
notification fired. -/
theorem Croppie.setZoom_fst (s : CroppieState) (value : ℚ) :
    (Croppie.setZoom s value).1 =
      { s with transform :=
          { s.transform with scale := clamp value s.effectiveMinZoom s.zoomConfig.max } } := by
  unfold Croppie.setZoom
  dsimp only
  split <;> rfl

/-- Relates the executable `mathMax` to Mathlib's `Max.max`. -/
theorem mathMax_eq_max (a b : ℚ) : mathMax a b = Max.max a b := by
  unfold mathMax
  rcases le_total a b with h | h
  · simp [h, max_eq_right h]
  · rcases eq_or_lt_of_le h with rfl | hlt
    · simp
    · simp [not_le.mpr hlt, max_eq_left h]

/-!
### C4 — coverage zoom

`calculateInitialZoom` returns `max(viewportWidth/imageWidth,
viewportHeight/imageHeight)` and this is the least uniform scale
covering the viewport on both axes.
-/

/-- C4: for positive image and viewport dimensions,
`calculateInitialZoom` equals `max(viewportWidth/imageWidth,
viewportHeight/imageHeight)`, the scaled image covers the viewport on
both axes at this scale, and no smaller scale does so on both axes. -/
theorem calculateInitialZoom_minimal_coverage
    (imageWidth imageHeight viewportWidth viewportHeight : ℚ)
    (hiw : 0 < imageWidth) (hih : 0 < imageHeight)
    (hvw : 0 < viewportWidth) (hvh : 0 < viewportHeight) :
    calculateInitialZoom imageWidth imageHeight viewportWidth viewportHeight =
      Max.max (viewportWidth / imageWidth) (viewportHeight / imageHeight) ∧
    viewportWidth ≤
      imageWidth * calculateInitialZoom imageWidth imageHeight viewportWidth viewportHeight ∧
    viewportHeight ≤
      imageHeight * calculateInitialZoom imageWidth imageHeight viewportWidth viewportHeight ∧
    ∀ u : ℚ, viewportWidth ≤ imageWidth * u → viewportHeight ≤ imageHeight * u →
      calculateInitialZoom imageWidth imageHeight viewportWidth viewportHeight ≤ u := by
  have hform : calculateInitialZoom imageWidth imageHeight viewportWidth viewportHeight =
      Max.max (viewportWidth / imageWidth) (viewportHeight / imageHeight) := by
    unfold calculateInitialZoom
    exact mathMax_eq_max _ _
  refine ⟨hform, ?_, ?_, ?_⟩
  · rw [hform]
    have h1 : viewportWidth / imageWidth ≤
        Max.max (viewportWidth / imageWidth) (viewportHeight / imageHeight) :=
      le_max_left _ _
    calc viewportWidth = imageWidth * (viewportWidth / imageWidth) := by
          field_simp
      _ ≤ imageWidth * Max.max (viewportWidth / imageWidth) (viewportHeight / imageHeight) :=
          mul_le_mul_of_nonneg_left h1 hiw.le
  · rw [hform]
    have h1 : viewportHeight / imageHeight ≤
        Max.max (viewportWidth / imageWidth) (viewportHeight / imageHeight) :=
      le_max_right _ _
    calc viewportHeight = imageHeight * (viewportHeight / imageHeight) := by
          field_simp
      _ ≤ imageHeight * Max.max (viewportWidth / imageWidth) (viewportHeight / imageHeight) :=
          mul_le_mul_of_nonneg_left h1 hih.le
  · intro u hu1 hu2
    rw [hform]
    refine max_le ?_ ?_
    · rw [div_le_iff₀ hiw]
      linarith [hu1]
    · rw [div_le_iff₀ hih]
      linarith [hu2]

/-- Witness for C4 at image 2×3, viewport 100×100: the coverage zoom
scales both image axes to at least 100. -/
theorem calculateInitialZoom_minimal_coverage_witness :
    (100 : ℚ) ≤ 2 * calculateInitialZoom 2 3 100 100 ∧
    (100 : ℚ) ≤ 3 * calculateInitialZoom 2 3 100 100 :=
  ⟨(calculateInitialZoom_minimal_coverage 2 3 100 100 (by norm_num) (by norm_num)
      (by norm_num) (by norm_num)).2.1,
   (calculateInitialZoom_minimal_coverage 2 3 100 100 (by norm_num) (by norm_num)
      (by norm_num) (by norm_num)).2.2.1⟩

/-!
### C6 — `setZoom` clamp correctness
-/

/-- C6: with `effectiveMinZoom ≤ zoomConfig.max`, `setZoom` clamps below
to `effectiveMinZoom`, above to `zoomConfig.max`, leaves in-range values
unchanged, and never touches the pan offsets. -/
theorem setZoom_clamp_correct (s : CroppieState) (x : ℚ)
    (h : s.effectiveMinZoom ≤ s.zoomConfig.max) :
    (x < s.effectiveMinZoom →
      (Croppie.setZoom s x).1.transform.scale = s.effectiveMinZoom) ∧
    (s.zoomConfig.max < x →
      (Croppie.setZoom s x).1.transform.scale = s.zoomConfig.max) ∧
    (s.effectiveMinZoom ≤ x → x ≤ s.zoomConfig.max →
      (Croppie.setZoom s x).1.transform.scale = x) ∧
    (Croppie.setZoom s x).1.transform.x = s.transform.x ∧
    (Croppie.setZoom s x).1.transform.y = s.transform.y := by
  rw [Croppie.setZoom_fst]
  refine ⟨?_, ?_, ?_, rfl, rfl⟩
  · intro hx
    simp only [clamp, mathMax, mathMin]
    split_ifs <;> linarith
  · intro hx
    simp only [clamp, mathMax, mathMin]
    split_ifs <;> linarith
  · intro hx1 hx2
    simp only [clamp, mathMax, mathMin]
    split_ifs <;> linarith

/-- Witness for C6: in `stateC6` (`effectiveMinZoom = 1`, `max = 10`),
`setZoom (1/2)` lands exactly on `effectiveMinZoom` with the pan kept. -/
theorem setZoom_clamp_correct_witness :
    stateC6.effectiveMinZoom ≤ stateC6.zoomConfig.max ∧
    (1/2 : ℚ) < stateC6.effectiveMinZoom ∧
    (Croppie.setZoom stateC6 (1/2)).1.transform.scale = stateC6.effectiveMinZoom ∧
    (Croppie.setZoom stateC6 (1/2)).1.transform.x = stateC6.transform.x := by
  have hle : stateC6.effectiveMinZoom ≤ stateC6.zoomConfig.max := by
    simp [stateC6, Croppie.bind, Croppie.create, calculateInitialZoom,
      clamp, mathMax, mathMin, DEFAULT_ZOOM]
    norm_num
  have hlt : (1/2 : ℚ) < stateC6.effectiveMinZoom := by
    simp [stateC6, Croppie.bind, Croppie.create, calculateInitialZoom,
      clamp, mathMax, mathMin, DEFAULT_ZOOM]
    norm_num
  exact ⟨hle, hlt, (setZoom_clamp_correct stateC6 (1/2) hle).1 hlt,
    (setZoom_clamp_correct stateC6 (1/2) hle).2.2.2.1⟩

/-!
### C7 — `setZoom` before any `bind`
-/

/-- C7 counterexample: before any bind, with configured
`zoomRange.min = 0.5`, `setZoom 0.2` stores 0.2 — it is NOT clamped
against the configured minimum. -/
theorem setZoom_before_bind_uses_constant_cex :
    (Croppie.create optionsC7).image = none ∧
    (Croppie.create optionsC7).zoomConfig.min = 1/2 ∧
    (Croppie.setZoom (Croppie.create optionsC7) (1/5)).1.transform.scale = 1/5 ∧
    (Croppie.setZoom (Croppie.create optionsC7) (1/5)).1.transform.scale ≠
      clamp (1/5) (Croppie.create optionsC7).zoomConfig.min
        (Croppie.create optionsC7).zoomConfig.max := by
  refine ⟨rfl, by simp [Croppie.create, optionsC7, DEFAULT_ZOOM], ?_, ?_⟩
  · rw [Croppie.setZoom_fst]
    simp [Croppie.create, optionsC7, DEFAULT_ZOOM, clamp, mathMax, mathMin]
    norm_num
  · rw [Croppie.setZoom_fst]
    simp [Croppie.create, optionsC7, DEFAULT_ZOOM, clamp, mathMax, mathMin]
    norm_num

/-- C7 amended: before any bind, `setZoom` clamps against the fixed
field-initializer constant 0.1 (the library default minimum), whatever
`zoomRange.min` was configured. -/
theorem setZoom_before_bind_uses_constant (options : CroppieOptions) (value : ℚ) :
    (Croppie.create options).image = none ∧
    (Croppie.setZoom (Croppie.create options) value).1.transform.scale =
      clamp value (1/10) (Croppie.create options).zoomConfig.max := by
  refine ⟨rfl, ?_⟩
  rw [Croppie.setZoom_fst]
  simp [Croppie.create]

/-!
### C3 — stored `effectiveMinZoom` after `bind`
-/

/-- C3 counterexample: after binding a 1×1 image under a 100×100
viewport with `max = 10`, the stored `effectiveMinZoom` is 100 — it is
not clamped to `zoomRange.max`, so `effectiveMinZoom ≤ max` fails. -/
theorem bind_effectiveMinZoom_exceeds_max_cex :
    stateC3.effectiveMinZoom = 100 ∧
    stateC3.zoomConfig.max = 10 ∧
    ¬(stateC3.effectiveMinZoom ≤ stateC3.zoomConfig.max) := by
  have h1 : stateC3.effectiveMinZoom = 100 := by
    simp [stateC3, Croppie.bind, Croppie.create, calculateInitialZoom,
      clamp, mathMax, mathMin, DEFAULT_ZOOM]
    norm_num
  have h2 : stateC3.zoomConfig.max = 10 := by
    simp [stateC3, Croppie.bind, Croppie.create, DEFAULT_ZOOM]
  refine ⟨h1, h2, ?_⟩
  rw [h1, h2]
  norm_num

/-- C3 amended: after every `bind` the stored `effectiveMinZoom` equals
`enforceMinimumCoverage ? max(zoomRange.min, coverageZoom) :
zoomRange.min` without any clamping to `zoomRange.max` (so it can exceed
it), while the applied scale itself never exceeds `zoomRange.max`. -/
theorem bind_effectiveMinZoom_formula (s : CroppieState) (image : ImageDims)
    (zoom : Option ℚ) :
    (Croppie.bind s image zoom).effectiveMinZoom =
      (if s.zoomConfig.enforceMinimumCoverage ≠ some false then
        mathMax s.zoomConfig.min
          (calculateInitialZoom image.naturalWidth image.naturalHeight
            s.viewport.width s.viewport.height)
      else s.zoomConfig.min) ∧
    (Croppie.bind s image zoom).transform.scale ≤ s.zoomConfig.max :=
  ⟨rfl, clamp_le_right _ _ _⟩

/-!
### C5 — initial transform installed by `bind`
-/

/-- C5: every `bind` resets the pan to `(0, 0)` and installs
`scale = clamp(requestedZoom ?? coverageZoom, effectiveMinZoom,
zoomRange.max)`; in the 100×100-viewport / 1×1-image scenario the
initial scale is 10 and `setZoom 0.5` leaves it at exactly 10. -/
theorem bind_initial_transform_spec :
    (∀ (s : CroppieState) (image : ImageDims) (zoom : Option ℚ),
      (Croppie.bind s image zoom).transform.x = 0 ∧
      (Croppie.bind s image zoom).transform.y = 0 ∧
      (Croppie.bind s image zoom).transform.scale =
        clamp
          (zoom.getD (calculateInitialZoom image.naturalWidth image.naturalHeight
            s.viewport.width s.viewport.height))
          ((Croppie.bind s image zoom).effectiveMinZoom)
          s.zoomConfig.max) ∧
    stateC5.transform.scale = 10 ∧
    (Croppie.setZoom stateC5 (1/2)).1.transform.scale = 10 := by
  refine ⟨fun s image zoom => ⟨rfl, rfl, rfl⟩, ?_, ?_⟩
  · simp [stateC5, Croppie.bind, Croppie.create, calculateInitialZoom,
      clamp, mathMax, mathMin, DEFAULT_ZOOM]
    norm_num
  · rw [Croppie.setZoom_fst]
    simp [stateC5, Croppie.bind, Croppie.create, calculateInitialZoom,
      clamp, mathMax, mathMin, DEFAULT_ZOOM]
    norm_num

/-!
### C10 — crossed clamp bounds and the degenerate coverage case
-/

/-- C10: when the bounds cross (`max < min`), `clamp` returns the upper
bound; hence whenever the stored `effectiveMinZoom` exceeds
`zoomConfig.max`, every `setZoom` and every `bind` stores a scale of
exactly `zoomConfig.max`. -/
theorem clamp_crossed_bounds_spec :
    (∀ value min max : ℚ, max < min → clamp value min max = max) ∧
    (∀ (s : CroppieState) (x : ℚ), s.zoomConfig.max < s.effectiveMinZoom →
      (Croppie.setZoom s x).1.transform.scale = s.zoomConfig.max) ∧
    (∀ (s : CroppieState) (image : ImageDims) (zoom : Option ℚ),
      s.zoomConfig.max < (Croppie.bind s image zoom).effectiveMinZoom →
      (Croppie.bind s image zoom).transform.scale = s.zoomConfig.max) := by
  have hcross : ∀ value min max : ℚ, max < min → clamp value min max = max := by
    intro value lo hi h
    simp only [clamp, mathMax, mathMin]
    split_ifs <;> linarith
  refine ⟨hcross, ?_, ?_⟩
  · intro s x h
    rw [Croppie.setZoom_fst]
    exact hcross x s.effectiveMinZoom s.zoomConfig.max h
  · intro s image zoom h
    exact hcross _ _ _ h

/-- Witness for C10 in the degenerate state `stateC10`
(`effectiveMinZoom = 100 > max = 10`): a crossed-bounds `clamp` returns
the upper bound and `setZoom 5` stores exactly `max = 10`. -/
theorem clamp_crossed_bounds_spec_witness :
    (clamp 7 12 10 = 10) ∧
    stateC10.zoomConfig.max < stateC10.effectiveMinZoom ∧
    (Croppie.setZoom stateC10 5).1.transform.scale = stateC10.zoomConfig.max := by
  have h : stateC10.zoomConfig.max < stateC10.effectiveMinZoom := by
    simp [stateC10, Croppie.bind, Croppie.create, calculateInitialZoom,
      clamp, mathMax, mathMin, DEFAULT_ZOOM]
    norm_num
  exact ⟨clamp_crossed_bounds_spec.1 7 12 10 (by norm_num), h,
    clamp_crossed_bounds_spec.2.1 stateC10 5 h⟩

/-!
### C2 — no-op zoom notification suppression
-/

/-- C2 counterexample: a slider input carrying the current zoom value 2
leaves the applied scale unchanged at 2, yet one "zoom" notification is
emitted — refuting "zero notifications for any no-op zoom update". -/
theorem sliderNoop_emits_notification_cex :
    stateC2.transform.scale = 2 ∧
    (Croppie.handleSliderInput stateC2 2).1.transform.scale = 2 ∧
    (Croppie.handleSliderInput stateC2 2).2 = [Notification.zoom 2 2] ∧
    (Croppie.handleSliderInput stateC2 2).2 ≠ [] := by
  have hprev : stateC2.transform.scale = 2 := by
    simp [stateC2, Croppie.bind, Croppie.create, calculateInitialZoom,
      clamp, mathMax, mathMin, DEFAULT_ZOOM]
    norm_num
  have happ : (Croppie.handleSliderInput stateC2 2).1.transform.scale = 2 := by
    simp only [Croppie.handleSliderInput]
    rw [Croppie.setZoom_fst]
    simp [stateC2, Croppie.bind, Croppie.create, calculateInitialZoom,
      clamp, mathMax, mathMin, DEFAULT_ZOOM]
    norm_num
  have hnotif : (Croppie.handleSliderInput stateC2 2).2 = [Notification.zoom 2 2] := by
    simp only [Croppie.handleSliderInput, Croppie.setZoom]
    simp [stateC2, Croppie.bind, Croppie.create, calculateInitialZoom,
      clamp, mathMax, mathMin, DEFAULT_ZOOM]
    norm_num
  exact ⟨hprev, happ, hnotif, by rw [hnotif]; simp⟩

/-- C2 amended: a direct `setZoom` whose clamped value equals the
previous scale emits nothing, and wheel / pinch updates whose
config-clamped candidate equals the previous scale emit nothing; but the
slider handler emits one "zoom" notification even for an unchanged
value (and wheel / pinch compare the candidate clamped only to the
static config range, not the effectively applied scale). -/
theorem zoom_noop_notifications_amended :
    (∀ (s : CroppieState) (value : ℚ),
      clamp value s.effectiveMinZoom s.zoomConfig.max = s.transform.scale →
      (Croppie.setZoom s value).2 = []) ∧
    (∀ (s : CroppieState) (deltaY : ℚ) (requireCtrl ctrlKey : Bool),
      clamp (s.transform.scale + (if deltaY > 0 then -(1/10) else 1/10))
        s.zoomConfig.min s.zoomConfig.max = s.transform.scale →
      (Croppie.handleWheel s deltaY requireCtrl ctrlKey).2 = []) ∧
    (∀ (s : CroppieState) (initialDistance initialZoom currentDistance : ℚ),
      clamp (initialZoom * (currentDistance / initialDistance))
        s.zoomConfig.min s.zoomConfig.max = s.transform.scale →
      (Croppie.handlePinchMove s initialDistance initialZoom currentDistance).2 = []) ∧
    (∀ (s : CroppieState) (value : ℚ),
      clamp value s.effectiveMinZoom s.zoomConfig.max = s.transform.scale →
      (Croppie.handleSliderInput s value).2 =
        [Notification.zoom s.transform.scale s.transform.scale]) := by
  have hsz : ∀ (s : CroppieState) (value : ℚ),
      clamp value s.effectiveMinZoom s.zoomConfig.max = s.transform.scale →
      (Croppie.setZoom s value).2 = [] := by
    intro s value h
    simp only [Croppie.setZoom]
    rw [if_neg]
    simp [h]
  refine ⟨hsz, ?_, ?_, ?_⟩
  · intro s deltaY requireCtrl ctrlKey h
    unfold Croppie.handleWheel
    dsimp only
    by_cases h1 : (requireCtrl && !ctrlKey) = true
    · rw [if_pos h1]
    · rw [if_neg h1]
      by_cases h2 : deltaY = 0
      · rw [if_pos h2]
      · rw [if_neg h2, if_neg (not_not_intro h)]
  · intro s initialDistance initialZoom currentDistance h
    unfold Croppie.handlePinchMove
    dsimp only
    by_cases h1 : initialDistance > 0
    · rw [if_pos h1, if_neg (not_not_intro h)]
    · rw [if_neg h1]
  · intro s value h
    simp only [Croppie.handleSliderInput]
    rw [hsz s value h]
    rw [Croppie.setZoom_fst]
    simp [h]

/-- Witness for C2 amended at `stateC2` with value 2: the clamp is a
no-op, `setZoom` emits nothing, and the slider handler still emits one
"zoom" notification. -/
theorem zoom_noop_notifications_amended_witness :
    clamp 2 stateC2.effectiveMinZoom stateC2.zoomConfig.max = stateC2.transform.scale ∧
    (Croppie.setZoom stateC2 2).2 = [] ∧
    (Croppie.handleSliderInput stateC2 2).2 =
      [Notification.zoom stateC2.transform.scale stateC2.transform.scale] := by
  have h : clamp 2 stateC2.effectiveMinZoom stateC2.zoomConfig.max =
      stateC2.transform.scale := by
    simp [stateC2, Croppie.bind, Croppie.create, calculateInitialZoom,
      clamp, mathMax, mathMin, DEFAULT_ZOOM]
  exact ⟨h, zoom_noop_notifications_amended.1 stateC2 2 h,
    zoom_noop_notifications_amended.2.2.2 stateC2 2 h⟩

/-!
### C1 — crop rectangle ordering and bounds
-/

/-- With an image bound, `getPoints` is the one-sided clamping of the
raw rectangle. -/
theorem Croppie.getPoints_of_some {s : CroppieState} {image : ImageDims}
    (himg : s.image = some image) :
    Croppie.getPoints s =
      { topLeftX := mathMax 0 (Croppie.cropRaw s image).topLeftX
        topLeftY := mathMax 0 (Croppie.cropRaw s image).topLeftY
        bottomRightX := mathMin image.naturalWidth (Croppie.cropRaw s image).bottomRightX
        bottomRightY := mathMin image.naturalHeight (Croppie.cropRaw s image).bottomRightY } := by
  unfold Croppie.getPoints
  rw [himg]

/-- The raw bottom-right is the raw top-left shifted by
`viewport / scale` on each axis. -/
theorem Croppie.cropRaw_bottomRight (s : CroppieState) (image : ImageDims) :
    (Croppie.cropRaw s image).bottomRightX =
      (Croppie.cropRaw s image).topLeftX + s.viewport.width / s.transform.scale ∧
    (Croppie.cropRaw s image).bottomRightY =
      (Croppie.cropRaw s image).topLeftY + s.viewport.height / s.transform.scale :=
  ⟨rfl, rfl⟩

/-- C1 counterexample: `stateC1` is reachable (create, bind, drag) and
has an image bound, yet its crop rectangle is unordered
(`topLeftX = 0 > bottomRightX = -900`) and out of bounds
(`bottomRightX < 0`). -/
theorem getPoints_unordered_cex :
    Reachable stateC1 ∧
    stateC1.image = some imageC1 ∧
    (Croppie.getPoints stateC1).topLeftX = 0 ∧
    (Croppie.getPoints stateC1).bottomRightX = -900 ∧
    ¬((Croppie.getPoints stateC1).topLeftX ≤ (Croppie.getPoints stateC1).bottomRightX ∧
      (Croppie.getPoints stateC1).topLeftY ≤ (Croppie.getPoints stateC1).bottomRightY ∧
      0 ≤ (Croppie.getPoints stateC1).topLeftX ∧
      (Croppie.getPoints stateC1).topLeftX ≤ imageC1.naturalWidth ∧
      0 ≤ (Croppie.getPoints stateC1).topLeftY ∧
      (Croppie.getPoints stateC1).topLeftY ≤ imageC1.naturalHeight ∧
      0 ≤ (Croppie.getPoints stateC1).bottomRightX ∧
      (Croppie.getPoints stateC1).bottomRightX ≤ imageC1.naturalWidth ∧
      0 ≤ (Croppie.getPoints stateC1).bottomRightY ∧
      (Croppie.getPoints stateC1).bottomRightY ≤ imageC1.naturalHeight) := by
  have hreach : Reachable stateC1 :=
    Reachable.drag _ 1000 0 (Reachable.bind _ imageC1 none (Reachable.create optionsC1))
  have himg : stateC1.image = some imageC1 := rfl
  have htl : (Croppie.getPoints stateC1).topLeftX = 0 := by
    rw [Croppie.getPoints_of_some himg]
    simp [stateC1, optionsC1, imageC1, Croppie.cropRaw, Croppie.dragTo, Croppie.bind,
      Croppie.create, calculateInitialZoom, clamp, mathMax, mathMin, DEFAULT_ZOOM]
    norm_num
  have hbr : (Croppie.getPoints stateC1).bottomRightX = -900 := by
    rw [Croppie.getPoints_of_some himg]
    simp [stateC1, optionsC1, imageC1, Croppie.cropRaw, Croppie.dragTo, Croppie.bind,
      Croppie.create, calculateInitialZoom, clamp, mathMax, mathMin, DEFAULT_ZOOM]
    norm_num
  refine ⟨hreach, himg, htl, hbr, ?_⟩
  intro hcontra
  have := hcontra.1
  rw [htl, hbr] at this
  norm_num at this

/-- C1 amended: with an image bound and a positive scale, the clamped
rectangle always satisfies the one-sided bounds (`topLeft ≥ 0`,
`bottomRight ≤` image dimension); it is moreover ordered and fully
inside `[0, imageWidth] × [0, imageHeight]` whenever the unclamped
rectangle still overlaps the image on both axes — over-panning can
violate ordering and the remaining bounds. -/
theorem getPoints_ordered_in_bounds_amended (s : CroppieState) (image : ImageDims)
    (himg : s.image = some image)
    (hscale : 0 < s.transform.scale)
    (hW : 0 ≤ image.naturalWidth) (hH : 0 ≤ image.naturalHeight)
    (hvw : 0 ≤ s.viewport.width) (hvh : 0 ≤ s.viewport.height) :
    (0 ≤ (Croppie.getPoints s).topLeftX ∧
     0 ≤ (Croppie.getPoints s).topLeftY ∧
     (Croppie.getPoints s).bottomRightX ≤ image.naturalWidth ∧
     (Croppie.getPoints s).bottomRightY ≤ image.naturalHeight) ∧
    ((Croppie.cropRaw s image).topLeftX ≤ image.naturalWidth →
     0 ≤ (Croppie.cropRaw s image).bottomRightX →
     (Croppie.cropRaw s image).topLeftY ≤ image.naturalHeight →
     0 ≤ (Croppie.cropRaw s image).bottomRightY →
      ((Croppie.getPoints s).topLeftX ≤ (Croppie.getPoints s).bottomRightX ∧
       (Croppie.getPoints s).topLeftY ≤ (Croppie.getPoints s).bottomRightY ∧
       0 ≤ (Croppie.getPoints s).topLeftX ∧
       (Croppie.getPoints s).topLeftX ≤ image.naturalWidth ∧
       0 ≤ (Croppie.getPoints s).topLeftY ∧
       (Croppie.getPoints s).topLeftY ≤ image.naturalHeight ∧
       0 ≤ (Croppie.getPoints s).bottomRightX ∧
       (Croppie.getPoints s).bottomRightX ≤ image.naturalWidth ∧
       0 ≤ (Croppie.getPoints s).bottomRightY ∧
       (Croppie.getPoints s).bottomRightY ≤ image.naturalHeight)) := by
  rw [Croppie.getPoints_of_some himg]
  have hstepX : (Croppie.cropRaw s image).topLeftX ≤
      (Croppie.cropRaw s image).bottomRightX := by
    rw [(Croppie.cropRaw_bottomRight s image).1]
    have : 0 ≤ s.viewport.width / s.transform.scale := div_nonneg hvw hscale.le
    linarith
  have hstepY : (Croppie.cropRaw s image).topLeftY ≤
      (Croppie.cropRaw s image).bottomRightY := by
    rw [(Croppie.cropRaw_bottomRight s image).2]
    have : 0 ≤ s.viewport.height / s.transform.scale := div_nonneg hvh hscale.le
    linarith
  refine ⟨⟨le_mathMax_left 0 _, le_mathMax_left 0 _,
    mathMin_le_left _ _, mathMin_le_left _ _⟩, ?_⟩
  intro htlW hbrX htlH hbrY
  refine ⟨?_, ?_, le_mathMax_left 0 _, mathMax_le hW htlW,
    le_mathMax_left 0 _, mathMax_le hH htlH,
    le_mathMin hW hbrX, mathMin_le_left _ _,
    le_mathMin hH hbrY, mathMin_le_left _ _⟩
  · exact le_mathMin (mathMax_le hW htlW) (mathMax_le hbrX hstepX)
  · exact le_mathMin (mathMax_le hH htlH) (mathMax_le hbrY hstepY)

/-- Witness for C1 amended at `stateC1w` (no pan): the crop rectangle is
ordered and within the image bounds. -/
theorem getPoints_ordered_in_bounds_amended_witness :
    0 < stateC1w.transform.scale ∧
    0 ≤ (Croppie.getPoints stateC1w).topLeftX ∧
    (Croppie.getPoints stateC1w).topLeftX ≤ (Croppie.getPoints stateC1w).bottomRightX ∧
    (Croppie.getPoints stateC1w).bottomRightX ≤ imageC1.naturalWidth := by
  have himg : stateC1w.image = some imageC1 := rfl
  have hscale : 0 < stateC1w.transform.scale := by
    simp [stateC1w, optionsC1, imageC1, Croppie.bind, Croppie.create,
      calculateInitialZoom, clamp, mathMax, mathMin, DEFAULT_ZOOM]
    norm_num
  have htlW : (Croppie.cropRaw stateC1w imageC1).topLeftX ≤ imageC1.naturalWidth := by
    simp [stateC1w, optionsC1, imageC1, Croppie.cropRaw, Croppie.bind, Croppie.create,
      calculateInitialZoom, clamp, mathMax, mathMin, DEFAULT_ZOOM]
    norm_num
  have hbrX : 0 ≤ (Croppie.cropRaw stateC1w imageC1).bottomRightX := by
    simp [stateC1w, optionsC1, imageC1, Croppie.cropRaw, Croppie.bind, Croppie.create,
      calculateInitialZoom, clamp, mathMax, mathMin, DEFAULT_ZOOM]
    norm_num
  have htlH : (Croppie.cropRaw stateC1w imageC1).topLeftY ≤ imageC1.naturalHeight := by
    simp [stateC1w, optionsC1, imageC1, Croppie.cropRaw, Croppie.bind, Croppie.create,
      calculateInitialZoom, clamp, mathMax, mathMin, DEFAULT_ZOOM]
    norm_num
  have hbrY : 0 ≤ (Croppie.cropRaw stateC1w imageC1).bottomRightY := by
    simp [stateC1w, optionsC1, imageC1, Croppie.cropRaw, Croppie.bind, Croppie.create,
      calculateInitialZoom, clamp, mathMax, mathMin, DEFAULT_ZOOM]
    norm_num
  have main := getPoints_ordered_in_bounds_amended stateC1w imageC1 himg hscale
    (by norm_num [imageC1]) (by norm_num [imageC1])
    (by norm_num [stateC1w, optionsC1, Croppie.bind, Croppie.create])
    (by norm_num [stateC1w, optionsC1, Croppie.bind, Croppie.create])
  have hfull := main.2 htlW hbrX htlH hbrY
  exact ⟨hscale, main.1.1, hfull.1, hfull.2.2.2.2.2.2.2.1⟩

/-!
### C9 — `result` failure modes leave the state untouched
-/

/-- C9: `result` fails with "No image bound" when no image is bound,
fails with "Unknown result type" on an unrecognized `type`, and in all
cases returns the widget state unchanged. -/
theorem result_failure_spec (s : CroppieState) (options : ResultOptions) :
    (s.image = none → (Croppie.result s options).1 = Except.error "No image bound") ∧
    (s.image ≠ none → options.type ≠ "canvas" → options.type ≠ "base64" →
      options.type ≠ "blob" →
      (Croppie.result s options).1 =
        Except.error ("Unknown result type: " ++ options.type)) ∧
    (Croppie.result s options).2 = s := by
  rcases himg : s.image with _ | img
  · refine ⟨fun _ => ?_, fun hne => absurd rfl hne, ?_⟩
    · simp [Croppie.result, himg]
    · simp [Croppie.result, himg]
  · refine ⟨fun hnone => Option.noConfusion hnone,
      fun _ h1 h2 h3 => ?_, ?_⟩
    · simp only [Croppie.result, himg]
    · simp only [Croppie.result, himg]
      split <;> rfl

/-- Witness for C9: with no image bound `result` errors with
"No image bound"; with an image bound but type "webp" it errors with
"Unknown result type: webp"; both leave the state unchanged. -/
theorem result_failure_spec_witness :
    (Croppie.result stateC9unbound optionsC9).1 = Except.error "No image bound" ∧
    (Croppie.result stateC9unbound optionsC9).2 = stateC9unbound ∧
    (Croppie.result stateC9 optionsC9).1 = Except.error "Unknown result type: webp" ∧
    (Croppie.result stateC9 optionsC9).2 = stateC9 :=
  ⟨(result_failure_spec stateC9unbound optionsC9).1 rfl,
   (result_failure_spec stateC9unbound optionsC9).2.2,
   (result_failure_spec stateC9 optionsC9).2.1 (by simp [stateC9, Croppie.bind])
     (by simp [optionsC9]) (by simp [optionsC9]) (by simp [optionsC9]),
   (result_failure_spec stateC9 optionsC9).2.2⟩

/-!
### C8 — output-size selection of `result`
-/

/-- C8: when `result` succeeds, the raster request's output size is the
viewport's dimensions for `size = "viewport"` or an absent size, the
crop rectangle's own width/height for `size = "original"` (computed
from `getPoints`), and a literal size verbatim; and `result` leaves the
widget state unchanged. -/
theorem result_output_size_spec (s : CroppieState) (options : ResultOptions)
    (out : ResultOutput)
    (h : (Croppie.result s options).1 = Except.ok out) :
    ((options.size = some ResultSize.viewport ∨ options.size = none) →
      out.request.outputWidth = s.viewport.width ∧
      out.request.outputHeight = s.viewport.height) ∧
    (options.size = some ResultSize.original →
      out.request.outputWidth =
        (Croppie.getPoints s).bottomRightX - (Croppie.getPoints s).topLeftX ∧
      out.request.outputHeight =
        (Croppie.getPoints s).bottomRightY - (Croppie.getPoints s).topLeftY) ∧
    (∀ w h' : ℚ, options.size = some (ResultSize.literal w h') →
      out.request.outputWidth = w ∧ out.request.outputHeight = h') ∧
    (Croppie.result s options).2 = s := by
  rcases himg : s.image with _ | img
  · rw [show (Croppie.result s options).1 = Except.error "No image bound" by
      simp [Croppie.result, himg]] at h
    exact Except.noConfusion h
  · have hstate : (Croppie.result s options).2 = s := by
      simp only [Croppie.result, himg]
      split <;> rfl
    simp only [Croppie.result, himg] at h
    refine ⟨?_, ?_, ?_, hstate⟩
    · rintro (hsz | hsz) <;>
        (split at h <;> simp_all [ResultOutput.request] <;>
          (subst h; exact ⟨rfl, rfl⟩))
    · intro hsz
      split at h <;> simp_all [ResultOutput.request] <;>
        (subst h; exact ⟨rfl, rfl⟩)
    · intro w h' hsz
      split at h <;> simp_all [ResultOutput.request] <;>
        (subst h; exact ⟨rfl, rfl⟩)

/-- Witness for C8: a canvas request with no size request succeeds and
uses the viewport's own dimensions, leaving the state unchanged. -/
theorem result_output_size_spec_witness :
    (Croppie.result stateC8 optionsC8).1 = Except.ok outC8 ∧
    outC8.request.outputWidth = stateC8.viewport.width ∧
    outC8.request.outputHeight = stateC8.viewport.height ∧
    (Croppie.result stateC8 optionsC8).2 = stateC8 := by
  have h : (Croppie.result stateC8 optionsC8).1 = Except.ok outC8 := rfl
  have main := result_output_size_spec stateC8 optionsC8 outC8 h
  exact ⟨h, (main.1 (Or.inr rfl)).1, (main.1 (Or.inr rfl)).2, main.2.2.2⟩
